import Mathlib

/-!
Verification of the batched 2D quad renderer in src/graphics.rs.

The renderer accumulates quad geometry in a CPU-side batch
(`vertex_data` / `element_count`) and drains it to the graphics device
(`flush`) when state changes, capacity is reached, or a frame is
presented.  This file gives a shallow embedding of the batching state
machine: the graphics device and the window are represented by a trace
of emitted device operations (`DeviceOp`), f32 arithmetic is modelled
over the rationals, and the trigonometric functions used in the rotated
branch of `push_quad` are passed in as abstract functions `qsin qcos`
(every property proved here concerns the rotation-zero fast path, which
never evaluates them).

The field `flushCalls` of `GraphicsState` is pure instrumentation: it
counts invocations of `flush`, so that properties of the form "this
call performs exactly one / zero flushes" can be stated.  Nothing else
in the embedding reads it.
-/

namespace Tetra

/-- Matrices of the external math library, specialised to the 4x4 f32
matrices the renderer uses, with f32 modelled as rationals. -/
abbrev Mat4 := Matrix (Fin 4) (Fin 4) ℚ

/-- Modelled from the spec: the frustum-plane parameter record of the
external math library's orthographic projection builder (spec section 4.5). -/
structure FrustumPlanes where
  left : ℚ
  right : ℚ
  bottom : ℚ
  top : ℚ
  near : ℚ
  far : ℚ
deriving DecidableEq

/-- Modelled from the spec: the GL-convention (negative-one-to-one depth)
right-handed orthographic projection of the external math library,
called as Mat4::orthographic_rh_no by the renderer.  Column-major
mathematical form: x is mapped to 2x/(r-l) - (r+l)/(r-l), y to
2y/(t-b) - (t+b)/(t-b), z to -2z/(f-n) - (f+n)/(f-n). -/
def orthographicRhNo (p : FrustumPlanes) : Mat4 :=
  !![2 / (p.right - p.left), 0, 0, -(p.right + p.left) / (p.right - p.left);
     0, 2 / (p.top - p.bottom), 0, -(p.top + p.bottom) / (p.top - p.bottom);
     0, 0, -2 / (p.far - p.near), -(p.far + p.near) / (p.far - p.near);
     0, 0, 0, 1]

/-- Modelled from the spec: RGBA color (4 float components). -/
structure Color where
  r : ℚ
  g : ℚ
  b : ℚ
  a : ℚ
deriving DecidableEq

/-- Color::WHITE, the neutral tint passed to the default uniforms. -/
def Color.WHITE : Color := ⟨1, 1, 1, 1⟩

/-- Modelled from the spec: 2-component float vector. -/
abbrev Vec2 := ℚ × ℚ

/-- Modelled from the spec: a vertex is a position, a texture
coordinate and a color (spec section 3). -/
structure Vertex where
  position : Vec2
  uv : Vec2
  color : Color
deriving DecidableEq

/-- Vertex::new from the mesh module: constructor taking position,
texture coordinate and color in that order, as used by push_quad. -/
def Vertex.new (position : Vec2) (uv : Vec2) (color : Color) : Vertex :=
  ⟨position, uv, color⟩

/-- Modelled from the spec: a texture handle, compared by value for the
flush-triggering equality check. -/
structure Texture where
  id : ℕ
deriving DecidableEq

/-- Modelled from the spec: a shader handle. -/
structure Shader where
  id : ℕ
deriving DecidableEq

/-- Modelled from the spec: a canvas (off-screen render target) owning
a texture and an optional multisample resolve target; size returns
(width, height). -/
structure Canvas where
  id : ℕ
  width : ℤ
  height : ℤ
  texture_id : ℕ
  multisample : Option ℕ
deriving DecidableEq

/-- Modelled from the spec: per-draw parameters (position, scale,
origin/pivot, rotation in radians, color tint), a pure value type. -/
structure DrawParams where
  position : Vec2
  scale : Vec2
  origin : Vec2
  rotation : ℚ
  color : Color
deriving DecidableEq

/-- Blend equation selector (graphics.rs). -/
inductive BlendOperation where
  | Add
  | Subtract
  | ReverseSubtract
  | Min
  | Max
deriving DecidableEq

/-- Blend factor selector (graphics.rs). -/
inductive BlendFactor where
  | Zero
  | One
  | Src
  | OneMinusSrc
  | SrcAlpha
  | OneMinusSrcAlpha
  | Dst
  | OneMinusDst
  | DstAlpha
  | OneMinusDstAlpha
  | SrcAlphaSaturated
  | Constant
  | OneMinusConstant
deriving DecidableEq

/-- Blend configuration (graphics.rs). -/
structure BlendState where
  color_operation : BlendOperation
  color_src : BlendFactor
  color_dst : BlendFactor
  alpha_operation : BlendOperation
  alpha_src : BlendFactor
  alpha_dst : BlendFactor
deriving DecidableEq

/-- BlendState::alpha from graphics.rs. -/
def BlendState.alpha (premultiplied : Bool) : BlendState :=
  let color_src := if premultiplied then BlendFactor.One else BlendFactor.SrcAlpha
  { color_operation := BlendOperation.Add
    color_src := color_src
    color_dst := BlendFactor.OneMinusSrcAlpha
    alpha_operation := BlendOperation.Add
    alpha_src := BlendFactor.One
    alpha_dst := BlendFactor.OneMinusSrcAlpha }

/-- Default for BlendState from graphics.rs: alpha blending,
non-premultiplied. -/
instance : Inhabited BlendState := ⟨BlendState.alpha false⟩

/-- Stencil visibility test (graphics.rs). -/
inductive StencilTest where
  | Never
  | LessThan
  | LessThanOrEqualTo
  | EqualTo
  | NotEqualTo
  | GreaterThan
  | GreaterThanOrEqualTo
  | Always
deriving DecidableEq

/-- Stencil buffer action (graphics.rs). -/
inductive StencilAction where
  | Keep
  | Zero
  | Replace
  | Increment
  | IncrementWrap
  | Decrement
  | DecrementWrap
  | Invert
deriving DecidableEq

/-- Stencil configuration (graphics.rs). -/
structure StencilState where
  enabled : Bool
  action : StencilAction
  test : StencilTest
  reference_value : ℕ
  write_mask : ℕ
  read_mask : ℕ
deriving DecidableEq

/-- Front-face winding convention, from the mesh module. -/
inductive VertexWinding where
  | Clockwise
  | CounterClockwise
deriving DecidableEq

/-- Rectangle<i32>, used for the scissor region. -/
structure Rectangle where
  x : ℤ
  y : ℤ
  width : ℤ
  height : ℤ
deriving DecidableEq

/-- Modelled from the spec: the window collaborator; get_size returns
(width, height), get_physical_size returns the physical pixel size. -/
structure Window where
  width : ℤ
  height : ℤ
  physical_width : ℤ
  physical_height : ℤ
deriving DecidableEq

/-- One operation issued to the graphics device (or window), recorded
in order of issue.  Each constructor corresponds to one device call in
graphics.rs. -/
inductive DeviceOp where
  | set_blend_state (b : BlendState)
  | resolve (canvas_id : ℕ) (texture_id : ℕ)
  | viewport (x : ℤ) (y : ℤ) (w : ℤ) (h : ℤ)
  | set_canvas (canvas_id : Option ℕ)
  | set_uniforms (matrix : Mat4) (tint : Color)
  | cull_face (enabled : Bool)
  | front_face (winding : VertexWinding)
  | set_vertex_buffer_data (data : List Vertex) (offset : ℕ)
  | draw (texture_id : ℕ) (shader_id : ℕ) (start : ℕ) (count : ℕ)
  | scissor (x : ℤ) (y : ℤ) (w : ℤ) (h : ℤ)
  | scissor_test (enabled : Bool)
  | set_stencil_state (s : StencilState)
  | clear_stencil (value : ℕ)
  | set_color_mask (red : Bool) (green : Bool) (blue : Bool) (alpha : Bool)
  | swap_buffers

/-- MAX_SPRITES from graphics.rs. -/
def MAX_SPRITES : ℕ := 2048

/-- MAX_VERTICES from graphics.rs. -/
def MAX_VERTICES : ℕ := MAX_SPRITES * 4

/-- MAX_INDICES from graphics.rs. -/
def MAX_INDICES : ℕ := MAX_SPRITES * 6

/-- The batching/render state of GraphicsContext (graphics.rs), minus
the device buffer handles (represented by the operation trace) and the
default filter mode (never read by the verified operations).
flushCalls is instrumentation counting flush invocations. -/
structure GraphicsState where
  texture : Option Texture
  default_texture : Texture
  shader : Option Shader
  default_shader : Shader
  canvas : Option Canvas
  projection_matrix : Mat4
  transform_matrix : Mat4
  vertex_data : List Vertex
  element_count : ℕ
  blend_state : BlendState
  flushCalls : ℕ

/-- The Context threaded through every public function: the graphics
state plus the window collaborator. -/
structure Context where
  graphics : GraphicsState
  window : Window

/-- ortho from graphics.rs: builds the orthographic projection with
left 0, right width, top/bottom depending on the flipped flag, and
near/far -1/1. -/
def ortho (width : ℚ) (height : ℚ) (flipped : Bool) : Mat4 :=
  orthographicRhNo
    { left := 0
      right := width
      bottom := if flipped then 0 else height
      top := if flipped then height else 0
      near := -1
      far := 1 }

/-- The state part of GraphicsContext::new (graphics.rs): no texture,
shader or canvas bound; identity transform; projection built from the
window size, unflipped; empty batch; default blend state. -/
def initialGraphics (window_width : ℤ) (window_height : ℤ)
    (default_shader : Shader) (default_texture : Texture) : GraphicsState :=
  { texture := none
    default_texture := default_texture
    shader := none
    default_shader := default_shader
    canvas := none
    projection_matrix := ortho (window_width : ℚ) (window_height : ℚ) false
    transform_matrix := 1
    vertex_data := []
    element_count := 0
    blend_state := default
    flushCalls := 0 }

/-- flush from graphics.rs.  If the batch is empty, nothing happens.
Otherwise, if no texture is bound the function returns early, leaving
the batch intact.  Otherwise it applies the default uniforms
(projection times transform, white tint), enables culling, sets the
front face from the canvas state, uploads the vertex data at offset 0,
issues one indexed draw over element_count, and clears the batch. -/
def flush (ctx : Context) : Context × List DeviceOp :=
  let g := ctx.graphics
  if g.vertex_data.isEmpty then
    ({ ctx with graphics := { g with flushCalls := g.flushCalls + 1 } }, [])
  else
    match g.texture with
    | none =>
      ({ ctx with graphics := { g with flushCalls := g.flushCalls + 1 } }, [])
    | some texture =>
      let shader := g.shader.getD g.default_shader
      ({ ctx with graphics :=
          { g with
            flushCalls := g.flushCalls + 1
            vertex_data := []
            element_count := 0 } },
       [DeviceOp.set_uniforms (g.projection_matrix * g.transform_matrix) Color.WHITE,
        DeviceOp.cull_face true,
        DeviceOp.front_face
          (match g.canvas with
           | none => VertexWinding.CounterClockwise
           | some _ => VertexWinding.Clockwise),
        DeviceOp.set_vertex_buffer_data g.vertex_data 0,
        DeviceOp.draw texture.id shader.id 0 g.element_count])

/-- push_quad from graphics.rs.  If appending 6 more indices would
exceed MAX_INDICES, flush first.  Then transform the two corners by
origin/scale, canonicalise each axis (swapping the texture coordinates
along with the corners when the scaled extent is inverted), rotate
unless the rotation is exactly zero, and append the 4 vertices.  The
components of the tuples sx, sy and cs are, in order, the post-swap
(fx, fx2, u1, u2), (fy, fy2, v1, v2) and the corner coordinates
(ox1, oy1, ox2, oy2, ox3, oy3, ox4, oy4) of the source. -/
def push_quad (qsin qcos : ℚ → ℚ) (ctx : Context)
    (x1 y1 x2 y2 u1 v1 u2 v2 : ℚ) (params : DrawParams) :
    Context × List DeviceOp :=
  let pre := if ctx.graphics.element_count + 6 > MAX_INDICES then flush ctx
             else (ctx, [])
  let ctx := pre.1
  let fx := (x1 - params.origin.1) * params.scale.1
  let fy := (y1 - params.origin.2) * params.scale.2
  let fx2 := (x2 - params.origin.1) * params.scale.1
  let fy2 := (y2 - params.origin.2) * params.scale.2
  let sx := if fx2 < fx then (fx2, fx, u2, u1) else (fx, fx2, u1, u2)
  let fx := sx.1
  let fx2 := sx.2.1
  let u1 := sx.2.2.1
  let u2 := sx.2.2.2
  let sy := if fy2 < fy then (fy2, fy, v2, v1) else (fy, fy2, v1, v2)
  let fy := sy.1
  let fy2 := sy.2.1
  let v1 := sy.2.2.1
  let v2 := sy.2.2.2
  let cs :=
    if params.rotation = 0 then
      (params.position.1 + fx, params.position.2 + fy,
       params.position.1 + fx, params.position.2 + fy2,
       params.position.1 + fx2, params.position.2 + fy2,
       params.position.1 + fx2, params.position.2 + fy)
    else
      let sinr := qsin params.rotation
      let cosr := qcos params.rotation
      (params.position.1 + (cosr * fx) - (sinr * fy),
       params.position.2 + (sinr * fx) + (cosr * fy),
       params.position.1 + (cosr * fx) - (sinr * fy2),
       params.position.2 + (sinr * fx) + (cosr * fy2),
       params.position.1 + (cosr * fx2) - (sinr * fy2),
       params.position.2 + (sinr * fx2) + (cosr * fy2),
       params.position.1 + (cosr * fx2) - (sinr * fy),
       params.position.2 + (sinr * fx2) + (cosr * fy))
  ({ ctx with graphics :=
      { ctx.graphics with
        vertex_data := ctx.graphics.vertex_data ++
          [Vertex.new (cs.1, cs.2.1) (u1, v1) params.color,
           Vertex.new (cs.2.2.1, cs.2.2.2.1) (u1, v2) params.color,
           Vertex.new (cs.2.2.2.2.1, cs.2.2.2.2.2.1) (u2, v2) params.color,
           Vertex.new (cs.2.2.2.2.2.2.1, cs.2.2.2.2.2.2.2) (u2, v1) params.color]
        element_count := ctx.graphics.element_count + 6 } }, pre.2)

/-- set_texture_ex from graphics.rs: flush and install only when the
texture differs from the current one. -/
def set_texture_ex (ctx : Context) (texture : Option Texture) :
    Context × List DeviceOp :=
  if texture ≠ ctx.graphics.texture then
    let fl := flush ctx
    ({ fl.1 with graphics := { fl.1.graphics with texture := texture } }, fl.2)
  else (ctx, [])

/-- set_texture from graphics.rs. -/
def set_texture (ctx : Context) (texture : Texture) : Context × List DeviceOp :=
  set_texture_ex ctx (some texture)

/-- set_blend_state from graphics.rs: on change, flush, record the new
state and forward it to the device. -/
def set_blend_state (ctx : Context) (blend_state : BlendState) :
    Context × List DeviceOp :=
  if blend_state ≠ ctx.graphics.blend_state then
    let fl := flush ctx
    ({ fl.1 with graphics := { fl.1.graphics with blend_state := blend_state } },
     fl.2 ++ [DeviceOp.set_blend_state blend_state])
  else (ctx, [])

/-- reset_blend_state from graphics.rs. -/
def reset_blend_state (ctx : Context) : Context × List DeviceOp :=
  set_blend_state ctx default

/-- set_shader_ex from graphics.rs. -/
def set_shader_ex (ctx : Context) (shader : Option Shader) :
    Context × List DeviceOp :=
  if shader ≠ ctx.graphics.shader then
    let fl := flush ctx
    ({ fl.1 with graphics := { fl.1.graphics with shader := shader } }, fl.2)
  else (ctx, [])

/-- set_shader from graphics.rs. -/
def set_shader (ctx : Context) (shader : Shader) : Context × List DeviceOp :=
  set_shader_ex ctx (some shader)

/-- reset_shader from graphics.rs. -/
def reset_shader (ctx : Context) : Context × List DeviceOp :=
  set_shader_ex ctx none

/-- resolve_canvas from graphics.rs: when the current canvas is
multisampled, issue a resolve of its handle to its texture. -/
def resolve_canvas (ctx : Context) : List DeviceOp :=
  match ctx.graphics.canvas with
  | some c =>
    if c.multisample.isSome then [DeviceOp.resolve c.id c.texture_id] else []
  | none => []

/-- set_canvas_ex from graphics.rs: on change, flush, resolve the
outgoing canvas, install the new one, then rebuild the projection
(unflipped from the window size for the screen, flipped from the
canvas size for a canvas), set the viewport and point the device at
the new target. -/
def set_canvas_ex (ctx : Context) (canvas : Option Canvas) :
    Context × List DeviceOp :=
  if canvas ≠ ctx.graphics.canvas then
    let fl := flush ctx
    let resolve_ops := resolve_canvas fl.1
    let ctx2 := { fl.1 with graphics := { fl.1.graphics with canvas := canvas } }
    match canvas with
    | none =>
      let width := ctx2.window.width
      let height := ctx2.window.height
      let physical_width := ctx2.window.physical_width
      let physical_height := ctx2.window.physical_height
      ({ ctx2 with graphics :=
          { ctx2.graphics with
            projection_matrix := ortho (width : ℚ) (height : ℚ) false } },
       fl.2 ++ resolve_ops ++
         [DeviceOp.viewport 0 0 physical_width physical_height,
          DeviceOp.set_canvas none])
    | some r =>
      ({ ctx2 with graphics :=
          { ctx2.graphics with
            projection_matrix := ortho (r.width : ℚ) (r.height : ℚ) true } },
       fl.2 ++ resolve_ops ++
         [DeviceOp.viewport 0 0 r.width r.height,
          DeviceOp.set_canvas (some r.id)])
  else (ctx, [])

/-- set_canvas from graphics.rs. -/
def set_canvas (ctx : Context) (canvas : Canvas) : Context × List DeviceOp :=
  set_canvas_ex ctx (some canvas)

/-- reset_canvas from graphics.rs. -/
def reset_canvas (ctx : Context) : Context × List DeviceOp :=
  set_canvas_ex ctx none

/-- present from graphics.rs: flush, then swap the window buffers. -/
def present (ctx : Context) : Context × List DeviceOp :=
  let fl := flush ctx
  (fl.1, fl.2 ++ [DeviceOp.swap_buffers])

/-- get_transform_matrix from graphics.rs. -/
def get_transform_matrix (ctx : Context) : Mat4 :=
  ctx.graphics.transform_matrix

/-- set_transform_matrix from graphics.rs: flush unconditionally, then
store the new matrix. -/
def set_transform_matrix (ctx : Context) (matrix : Mat4) :
    Context × List DeviceOp :=
  let fl := flush ctx
  ({ fl.1 with graphics := { fl.1.graphics with transform_matrix := matrix } },
   fl.2)

/-- reset_transform_matrix from graphics.rs. -/
def reset_transform_matrix (ctx : Context) : Context × List DeviceOp :=
  set_transform_matrix ctx 1

/-- set_scissor from graphics.rs: flush, then forward the rectangle to
the device, flipping the Y origin from top-left to bottom-left using
the physical window height when rendering to the screen and leaving it
unchanged when a canvas is active, and enable the scissor test. -/
def set_scissor (ctx : Context) (scissor_rect : Rectangle) :
    Context × List DeviceOp :=
  let fl := flush ctx
  let ctx := fl.1
  let scissor_ops :=
    match ctx.graphics.canvas with
    | none =>
      let physical_height := ctx.window.physical_height
      [DeviceOp.scissor scissor_rect.x
        (physical_height - (scissor_rect.y + scissor_rect.height))
        scissor_rect.width scissor_rect.height]
    | some _ =>
      [DeviceOp.scissor scissor_rect.x scissor_rect.y
        scissor_rect.width scissor_rect.height]
  (ctx, fl.2 ++ scissor_ops ++ [DeviceOp.scissor_test true])

/-- reset_scissor from graphics.rs. -/
def reset_scissor (ctx : Context) : Context × List DeviceOp :=
  let fl := flush ctx
  (fl.1, fl.2 ++ [DeviceOp.scissor_test false])

/-- set_stencil_state from graphics.rs. -/
def set_stencil_state (ctx : Context) (state : StencilState) :
    Context × List DeviceOp :=
  let fl := flush ctx
  (fl.1, fl.2 ++ [DeviceOp.set_stencil_state state])

/-- clear_stencil from graphics.rs. -/
def clear_stencil (ctx : Context) (value : ℕ) : Context × List DeviceOp :=
  let fl := flush ctx
  (fl.1, fl.2 ++ [DeviceOp.clear_stencil value])

/-- set_color_mask from graphics.rs. -/
def set_color_mask (ctx : Context) (red green blue alpha : Bool) :
    Context × List DeviceOp :=
  let fl := flush ctx
  (fl.1, fl.2 ++ [DeviceOp.set_color_mask red green blue alpha])

/-- Batch invariant of the spec data model: element_count is a
multiple of 6 and element_count / 6 equals vertex_data.length / 4,
stated without division: both counters come from a common number k of
pending quads, element_count = 6 * k and vertex_data.length = 4 * k. -/
def BatchInv (g : GraphicsState) : Prop :=
  ∃ k : ℕ, g.element_count = 6 * k ∧ g.vertex_data.length = 4 * k

/-- A sample texture for concrete scenarios. -/
def texture0 : Texture := ⟨1⟩

/-- A sample shader for concrete scenarios. -/
def shader0 : Shader := ⟨2⟩

/-- A sample multisample-free canvas for concrete scenarios. -/
def canvas0 : Canvas := ⟨5, 320, 240, 7, none⟩

/-- A sample vertex for concrete scenarios. -/
def sampleVertex : Vertex := Vertex.new (0, 0) (0, 0) Color.WHITE

/-- A sample window for concrete scenarios. -/
def baseWindow : Window := ⟨800, 600, 800, 600⟩

/-- A freshly initialised context for concrete scenarios. -/
def baseCtx : Context := ⟨initialGraphics 800 600 shader0 texture0, baseWindow⟩

/-- Draw parameters with the defaults of DrawParams::new. -/
def defaultParams : DrawParams :=
  { position := (0, 0), scale := (1, 1), origin := (0, 0), rotation := 0,
    color := Color.WHITE }

/-- One unrotated unit-square quad push with fixed arguments, used for
the capacity scenario. -/
def pushOne (ctx : Context) : Context :=
  (push_quad (fun _ => 0) (fun _ => 0) ctx 0 0 32 32 0 0 1 1 defaultParams).1

/-- Iterate pushOne n times. -/
def pushN (ctx : Context) : ℕ → Context
  | 0 => ctx
  | n + 1 => pushOne (pushN ctx n)

/-- The arguments of one push_quad call, for stating properties of
arbitrary push sequences. -/
structure QuadCall where
  x1 : ℚ
  y1 : ℚ
  x2 : ℚ
  y2 : ℚ
  u1 : ℚ
  v1 : ℚ
  u2 : ℚ
  v2 : ℚ
  params : DrawParams

/-- Perform a sequence of push_quad calls. -/
def pushMany (qsin qcos : ℚ → ℚ) (ctx : Context) : List QuadCall → Context
  | [] => ctx
  | q :: rest =>
    pushMany qsin qcos
      (push_quad qsin qcos ctx q.x1 q.y1 q.x2 q.y2 q.u1 q.v1 q.u2 q.v2 q.params).1
      rest

/-- The base context with a texture bound, used as starting state for
the capacity scenario. -/
def ctxTex : Context :=
  { baseCtx with graphics := { baseCtx.graphics with texture := some texture0 } }

/-- A context holding one pending quad with a texture bound. -/
def ctxBatch : Context :=
  { baseCtx with graphics :=
      { baseCtx.graphics with
        texture := some texture0
        vertex_data := [sampleVertex, sampleVertex, sampleVertex, sampleVertex]
        element_count := 6 } }

/-- A context holding one pending quad with a texture bound and a
canvas active. -/
def ctxBatchCanvas : Context :=
  { ctxBatch with graphics := { ctxBatch.graphics with canvas := some canvas0 } }

/-- A context holding one pending quad with no texture bound. -/
def ctxBatchNoTex : Context :=
  { baseCtx with graphics :=
      { baseCtx.graphics with
        vertex_data := [sampleVertex, sampleVertex, sampleVertex, sampleVertex]
        element_count := 6 } }

/-- A context whose batch is exactly full (2048 quads) with no texture
bound. -/
def ctxOver : Context :=
  { baseCtx with graphics :=
      { baseCtx.graphics with
        vertex_data := List.replicate 8192 sampleVertex
        element_count := 12288 } }

/-- A sample quad-call argument tuple. -/
def call0 : QuadCall := ⟨0, 0, 32, 32, 0, 0, 1, 1, defaultParams⟩

theorem flush_of_empty (ctx : Context) (h : ctx.graphics.vertex_data = []) :
    flush ctx =
      ({ ctx with graphics :=
          { ctx.graphics with flushCalls := ctx.graphics.flushCalls + 1 } }, []) := by
  simp [flush, h]

theorem flush_of_no_texture (ctx : Context)
    (h1 : ctx.graphics.vertex_data ≠ []) (h2 : ctx.graphics.texture = none) :
    flush ctx =
      ({ ctx with graphics :=
          { ctx.graphics with flushCalls := ctx.graphics.flushCalls + 1 } }, []) := by
  simp [flush, h1, h2]

theorem flush_of_texture (ctx : Context) (t : Texture)
    (h1 : ctx.graphics.vertex_data ≠ []) (h2 : ctx.graphics.texture = some t) :
    flush ctx =
      ({ ctx with graphics :=
          { ctx.graphics with
            flushCalls := ctx.graphics.flushCalls + 1
            vertex_data := []
            element_count := 0 } },
       [DeviceOp.set_uniforms
          (ctx.graphics.projection_matrix * ctx.graphics.transform_matrix)
          Color.WHITE,
        DeviceOp.cull_face true,
        DeviceOp.front_face
          (match ctx.graphics.canvas with
           | none => VertexWinding.CounterClockwise
           | some _ => VertexWinding.Clockwise),
        DeviceOp.set_vertex_buffer_data ctx.graphics.vertex_data 0,
        DeviceOp.draw t.id (ctx.graphics.shader.getD ctx.graphics.default_shader).id
          0 ctx.graphics.element_count]) := by
  simp [flush, h1, h2]

theorem flush_preserves (ctx : Context) :
    (flush ctx).1.graphics.texture = ctx.graphics.texture ∧
    (flush ctx).1.graphics.shader = ctx.graphics.shader ∧
    (flush ctx).1.graphics.default_shader = ctx.graphics.default_shader ∧
    (flush ctx).1.graphics.default_texture = ctx.graphics.default_texture ∧
    (flush ctx).1.graphics.canvas = ctx.graphics.canvas ∧
    (flush ctx).1.graphics.projection_matrix = ctx.graphics.projection_matrix ∧
    (flush ctx).1.graphics.transform_matrix = ctx.graphics.transform_matrix ∧
    (flush ctx).1.graphics.blend_state = ctx.graphics.blend_state ∧
    (flush ctx).1.window = ctx.window := by
  unfold flush
  dsimp only
  split
  · simp
  · split <;> simp

theorem flush_flushCalls (ctx : Context) :
    (flush ctx).1.graphics.flushCalls = ctx.graphics.flushCalls + 1 := by
  unfold flush
  dsimp only
  split
  · simp
  · split <;> simp

theorem flush_batch_cases (ctx : Context) :
    ((flush ctx).1.graphics.vertex_data = [] ∧
     (flush ctx).1.graphics.element_count = 0) ∨
    ((flush ctx).1.graphics.vertex_data = ctx.graphics.vertex_data ∧
     (flush ctx).1.graphics.element_count = ctx.graphics.element_count) := by
  unfold flush
  dsimp only
  split
  · right; simp
  · split
    · right; simp
    · left; simp

theorem push_quad_le (qsin qcos : ℚ → ℚ) (ctx : Context)
    (x1 y1 x2 y2 u1 v1 u2 v2 : ℚ) (params : DrawParams)
    (h : ctx.graphics.element_count + 6 ≤ MAX_INDICES) :
    (push_quad qsin qcos ctx x1 y1 x2 y2 u1 v1 u2 v2 params).1.graphics.element_count =
      ctx.graphics.element_count + 6 ∧
    (push_quad qsin qcos ctx x1 y1 x2 y2 u1 v1 u2 v2 params).1.graphics.vertex_data.length =
      ctx.graphics.vertex_data.length + 4 ∧
    (push_quad qsin qcos ctx x1 y1 x2 y2 u1 v1 u2 v2 params).1.graphics.flushCalls =
      ctx.graphics.flushCalls ∧
    (push_quad qsin qcos ctx x1 y1 x2 y2 u1 v1 u2 v2 params).1.graphics.texture =
      ctx.graphics.texture ∧
    (push_quad qsin qcos ctx x1 y1 x2 y2 u1 v1 u2 v2 params).1.graphics.shader =
      ctx.graphics.shader ∧
    (push_quad qsin qcos ctx x1 y1 x2 y2 u1 v1 u2 v2 params).1.graphics.default_shader =
      ctx.graphics.default_shader ∧
    (push_quad qsin qcos ctx x1 y1 x2 y2 u1 v1 u2 v2 params).1.graphics.canvas =
      ctx.graphics.canvas ∧
    (push_quad qsin qcos ctx x1 y1 x2 y2 u1 v1 u2 v2 params).1.graphics.blend_state =
      ctx.graphics.blend_state ∧
    (push_quad qsin qcos ctx x1 y1 x2 y2 u1 v1 u2 v2 params).1.graphics.transform_matrix =
      ctx.graphics.transform_matrix ∧
    (push_quad qsin qcos ctx x1 y1 x2 y2 u1 v1 u2 v2 params).1.graphics.projection_matrix =
      ctx.graphics.projection_matrix ∧
    (push_quad qsin qcos ctx x1 y1 x2 y2 u1 v1 u2 v2 params).1.window = ctx.window ∧
    (push_quad qsin qcos ctx x1 y1 x2 y2 u1 v1 u2 v2 params).2 = [] := by
  have h2 : ¬ (ctx.graphics.element_count + 6 > MAX_INDICES) := not_lt.mpr h
  simp [push_quad, h2]

theorem push_quad_gt (qsin qcos : ℚ → ℚ) (ctx : Context)
    (x1 y1 x2 y2 u1 v1 u2 v2 : ℚ) (params : DrawParams)
    (h : ctx.graphics.element_count + 6 > MAX_INDICES) :
    (push_quad qsin qcos ctx x1 y1 x2 y2 u1 v1 u2 v2 params).1.graphics.element_count =
      (flush ctx).1.graphics.element_count + 6 ∧
    (push_quad qsin qcos ctx x1 y1 x2 y2 u1 v1 u2 v2 params).1.graphics.vertex_data.length =
      (flush ctx).1.graphics.vertex_data.length + 4 ∧
    (push_quad qsin qcos ctx x1 y1 x2 y2 u1 v1 u2 v2 params).1.graphics.flushCalls =
      ctx.graphics.flushCalls + 1 ∧
    (push_quad qsin qcos ctx x1 y1 x2 y2 u1 v1 u2 v2 params).1.graphics.texture =
      ctx.graphics.texture ∧
    (push_quad qsin qcos ctx x1 y1 x2 y2 u1 v1 u2 v2 params).1.window = ctx.window ∧
    (push_quad qsin qcos ctx x1 y1 x2 y2 u1 v1 u2 v2 params).2 = (flush ctx).2 := by
  obtain ⟨ht, -, -, -, -, -, -, -, hw⟩ := flush_preserves ctx
  have hc := flush_flushCalls ctx
  simp [push_quad, h, ht, hw, hc]

theorem pushMany_counts (qsin qcos : ℚ → ℚ) :
    ∀ (calls : List QuadCall) (ctx : Context),
      ctx.graphics.element_count + 6 * calls.length ≤ MAX_INDICES →
      (pushMany qsin qcos ctx calls).graphics.element_count =
        ctx.graphics.element_count + 6 * calls.length ∧
      (pushMany qsin qcos ctx calls).graphics.vertex_data.length =
        ctx.graphics.vertex_data.length + 4 * calls.length ∧
      (pushMany qsin qcos ctx calls).graphics.flushCalls = ctx.graphics.flushCalls
  | [], ctx, _ => by simp [pushMany]
  | q :: rest, ctx, h => by
    have hlen : ctx.graphics.element_count + 6 ≤ MAX_INDICES := by
      simp only [List.length_cons] at h
      omega
    obtain ⟨h1, h2, h3, -⟩ :=
      push_quad_le qsin qcos ctx q.x1 q.y1 q.x2 q.y2 q.u1 q.v1 q.u2 q.v2 q.params hlen
    have ih := pushMany_counts qsin qcos rest
      (push_quad qsin qcos ctx q.x1 q.y1 q.x2 q.y2 q.u1 q.v1 q.u2 q.v2 q.params).1
      (by simp only [List.length_cons] at h; omega)
    obtain ⟨i1, i2, i3⟩ := ih
    refine ⟨?_, ?_, ?_⟩ <;> simp only [pushMany, List.length_cons] <;> omega

theorem pushN_props :
    ∀ n : ℕ, n ≤ 2048 →
      (pushN ctxTex n).graphics.element_count = 6 * n ∧
      (pushN ctxTex n).graphics.vertex_data.length = 4 * n ∧
      (pushN ctxTex n).graphics.flushCalls = 0 ∧
      (pushN ctxTex n).graphics.texture = some texture0
  | 0, _ => by simp [pushN, ctxTex, baseCtx, initialGraphics]
  | n + 1, h => by
    obtain ⟨i1, i2, i3, i4⟩ := pushN_props n (by omega)
    have hle : (pushN ctxTex n).graphics.element_count + 6 ≤ MAX_INDICES := by
      rw [i1]
      simp only [MAX_INDICES, MAX_SPRITES]
      omega
    obtain ⟨h1, h2, h3, h4, -⟩ :=
      push_quad_le (fun _ => 0) (fun _ => 0) (pushN ctxTex n)
        0 0 32 32 0 0 1 1 defaultParams hle
    simp only [pushN, pushOne]
    refine ⟨?_, ?_, ?_, ?_⟩
    · rw [h1, i1]; ring
    · rw [h2, i2]; ring
    · rw [h3, i3]
    · rw [h4, i4]

theorem scenario2049 :
    (pushN ctxTex 2049).graphics.element_count = 6 ∧
    (pushN ctxTex 2049).graphics.vertex_data.length = 4 ∧
    (pushN ctxTex 2049).graphics.flushCalls = 1 := by
  obtain ⟨i1, i2, i3, i4⟩ := pushN_props 2048 le_rfl
  have hgt : (pushN ctxTex 2048).graphics.element_count + 6 > MAX_INDICES := by
    rw [i1]
    simp only [MAX_INDICES, MAX_SPRITES]
    omega
  obtain ⟨h1, h2, h3, -, -, -⟩ :=
    push_quad_gt (fun _ => 0) (fun _ => 0) (pushN ctxTex 2048)
      0 0 32 32 0 0 1 1 defaultParams hgt
  have hne : (pushN ctxTex 2048).graphics.vertex_data ≠ [] := by
    intro hnil
    rw [hnil] at i2
    simp at i2
  have hfl := flush_of_texture (pushN ctxTex 2048) texture0 hne i4
  have e : pushN ctxTex 2049 = pushOne (pushN ctxTex 2048) := rfl
  rw [e, pushOne]
  refine ⟨?_, ?_, ?_⟩
  · rw [h1, hfl]
  · rw [h2, hfl]; simp
  · rw [h3, i3]

theorem batchInv_flush (ctx : Context) (h : BatchInv ctx.graphics) :
    BatchInv (flush ctx).1.graphics := by
  obtain ⟨k, hk1, hk2⟩ := h
  rcases flush_batch_cases ctx with ⟨h1, h2⟩ | ⟨h1, h2⟩
  · exact ⟨0, by omega, by simp [h1]⟩
  · exact ⟨k, by omega, by rw [h1]; exact hk2⟩

theorem batchInv_push (qsin qcos : ℚ → ℚ) (ctx : Context)
    (x1 y1 x2 y2 u1 v1 u2 v2 : ℚ) (params : DrawParams)
    (h : BatchInv ctx.graphics) :
    BatchInv (push_quad qsin qcos ctx x1 y1 x2 y2 u1 v1 u2 v2 params).1.graphics := by
  by_cases hc : ctx.graphics.element_count + 6 ≤ MAX_INDICES
  · obtain ⟨h1, h2, -⟩ := push_quad_le qsin qcos ctx x1 y1 x2 y2 u1 v1 u2 v2 params hc
    obtain ⟨k, hk1, hk2⟩ := h
    exact ⟨k + 1, by omega, by omega⟩
  · have hgt : ctx.graphics.element_count + 6 > MAX_INDICES := by omega
    obtain ⟨h1, h2, -⟩ := push_quad_gt qsin qcos ctx x1 y1 x2 y2 u1 v1 u2 v2 params hgt
    obtain ⟨k, hk1, hk2⟩ := batchInv_flush ctx h
    exact ⟨k + 1, by omega, by omega⟩

theorem batchInv_set_texture_ex (ctx : Context) (tex : Option Texture)
    (h : BatchInv ctx.graphics) : BatchInv (set_texture_ex ctx tex).1.graphics := by
  have hf := batchInv_flush ctx h
  unfold set_texture_ex
  dsimp only
  split
  · obtain ⟨k, hk1, hk2⟩ := hf
    exact ⟨k, by simpa using hk1, by simpa using hk2⟩
  · exact h

theorem batchInv_set_shader_ex (ctx : Context) (sh : Option Shader)
    (h : BatchInv ctx.graphics) : BatchInv (set_shader_ex ctx sh).1.graphics := by
  have hf := batchInv_flush ctx h
  unfold set_shader_ex
  dsimp only
  split
  · obtain ⟨k, hk1, hk2⟩ := hf
    exact ⟨k, by simpa using hk1, by simpa using hk2⟩
  · exact h

theorem batchInv_set_blend_state (ctx : Context) (b : BlendState)
    (h : BatchInv ctx.graphics) : BatchInv (set_blend_state ctx b).1.graphics := by
  have hf := batchInv_flush ctx h
  unfold set_blend_state
  dsimp only
  split
  · obtain ⟨k, hk1, hk2⟩ := hf
    exact ⟨k, by simpa using hk1, by simpa using hk2⟩
  · exact h

theorem batchInv_set_canvas_ex (ctx : Context) (cv : Option Canvas)
    (h : BatchInv ctx.graphics) : BatchInv (set_canvas_ex ctx cv).1.graphics := by
  have hf := batchInv_flush ctx h
  unfold set_canvas_ex
  dsimp only
  split
  · obtain ⟨k, hk1, hk2⟩ := hf
    cases cv <;> exact ⟨k, by simpa using hk1, by simpa using hk2⟩
  · exact h

theorem batchInv_set_transform_matrix (ctx : Context) (m : Mat4)
    (h : BatchInv ctx.graphics) :
    BatchInv (set_transform_matrix ctx m).1.graphics := by
  have hf := batchInv_flush ctx h
  unfold set_transform_matrix
  dsimp only
  obtain ⟨k, hk1, hk2⟩ := hf
  exact ⟨k, by simpa using hk1, by simpa using hk2⟩

theorem batchInv_set_scissor (ctx : Context) (r : Rectangle)
    (h : BatchInv ctx.graphics) : BatchInv (set_scissor ctx r).1.graphics := by
  have hf := batchInv_flush ctx h
  unfold set_scissor
  dsimp only
  exact hf

theorem batchInv_reset_scissor (ctx : Context)
    (h : BatchInv ctx.graphics) : BatchInv (reset_scissor ctx).1.graphics := by
  have hf := batchInv_flush ctx h
  unfold reset_scissor
  dsimp only
  exact hf

theorem batchInv_set_stencil_state (ctx : Context) (st : StencilState)
    (h : BatchInv ctx.graphics) : BatchInv (set_stencil_state ctx st).1.graphics := by
  have hf := batchInv_flush ctx h
  unfold set_stencil_state
  dsimp only
  exact hf

theorem batchInv_clear_stencil (ctx : Context) (v : ℕ)
    (h : BatchInv ctx.graphics) : BatchInv (clear_stencil ctx v).1.graphics := by
  have hf := batchInv_flush ctx h
  unfold clear_stencil
  dsimp only
  exact hf

theorem batchInv_set_color_mask (ctx : Context) (mr mg mb ma : Bool)
    (h : BatchInv ctx.graphics) :
    BatchInv (set_color_mask ctx mr mg mb ma).1.graphics := by
  have hf := batchInv_flush ctx h
  unfold set_color_mask
  dsimp only
  exact hf

theorem batchInv_present (ctx : Context)
    (h : BatchInv ctx.graphics) : BatchInv (present ctx).1.graphics := by
  have hf := batchInv_flush ctx h
  unfold present
  dsimp only
  exact hf

/-- C1 (amended): in a state satisfying the batch invariant with a
texture bound, push_quad performs exactly one implicit flush call when
appending would exceed MAX_INDICES and none otherwise, and after the
call element_count is at most MAX_INDICES and the vertex count at most
MAX_VERTICES; pushing 2049 quads from an empty batch with a texture
bound performs exactly one implicit flush and leaves a final batch of
one quad (4 vertices, 6 indices).  (The texture-bound hypothesis is
necessary: without it the implicit flush does not drain the batch and
the capacity can be exceeded, see the counterexample.) -/
theorem C1_push_quad_capacity (qsin qcos : ℚ → ℚ) (ctx : Context)
    (x1 y1 x2 y2 u1 v1 u2 v2 : ℚ) (params : DrawParams) (t : Texture)
    (hTex : ctx.graphics.texture = some t) (hInv : BatchInv ctx.graphics) :
    ((push_quad qsin qcos ctx x1 y1 x2 y2 u1 v1 u2 v2
        params).1.graphics.element_count ≤ MAX_INDICES ∧
     (push_quad qsin qcos ctx x1 y1 x2 y2 u1 v1 u2 v2
        params).1.graphics.vertex_data.length ≤ MAX_VERTICES) ∧
    (ctx.graphics.element_count + 6 > MAX_INDICES →
      (push_quad qsin qcos ctx x1 y1 x2 y2 u1 v1 u2 v2
        params).1.graphics.flushCalls = ctx.graphics.flushCalls + 1) ∧
    (ctx.graphics.element_count + 6 ≤ MAX_INDICES →
      (push_quad qsin qcos ctx x1 y1 x2 y2 u1 v1 u2 v2
        params).1.graphics.flushCalls = ctx.graphics.flushCalls) ∧
    ((pushN ctxTex 2049).graphics.element_count = 6 ∧
     (pushN ctxTex 2049).graphics.vertex_data.length = 4 ∧
     (pushN ctxTex 2049).graphics.flushCalls = 1) := by
  obtain ⟨k, hk1, hk2⟩ := hInv
  by_cases hc : ctx.graphics.element_count + 6 ≤ MAX_INDICES
  · obtain ⟨h1, h2, h3, -⟩ :=
      push_quad_le qsin qcos ctx x1 y1 x2 y2 u1 v1 u2 v2 params hc
    refine ⟨⟨by omega, ?_⟩, fun hgt => absurd hgt (not_lt.mpr hc),
      fun _ => h3, scenario2049⟩
    rw [h2]
    simp only [MAX_INDICES, MAX_VERTICES, MAX_SPRITES] at hc ⊢
    omega
  · have hgt : ctx.graphics.element_count + 6 > MAX_INDICES := by omega
    obtain ⟨h1, h2, h3, -⟩ :=
      push_quad_gt qsin qcos ctx x1 y1 x2 y2 u1 v1 u2 v2 params hgt
    have hne : ctx.graphics.vertex_data ≠ [] := by
      intro hnil
      rw [hnil] at hk2
      simp only [List.length_nil] at hk2
      simp only [MAX_INDICES, MAX_SPRITES] at hgt
      omega
    have hfl := flush_of_texture ctx t hne hTex
    refine ⟨⟨?_, ?_⟩, fun _ => h3, fun hle => absurd hle hc, scenario2049⟩
    · rw [h1, hfl]
      norm_num [MAX_INDICES, MAX_SPRITES]
    · rw [h2, hfl]
      norm_num [MAX_VERTICES, MAX_SPRITES]

/-- C1 counterexample: in a state with a full batch (2048 quads) and
no texture bound, push_quad calls flush, which returns without
draining, and then appends anyway, so element_count exceeds
MAX_INDICES, refuting the unconditional capacity bound of the claim. -/
theorem C1_counterexample :
    MAX_INDICES < (pushOne ctxOver).graphics.element_count := by
  have hgt : ctxOver.graphics.element_count + 6 > MAX_INDICES := by decide
  obtain ⟨h1, -, -, -, -, -⟩ :=
    push_quad_gt (fun _ => 0) (fun _ => 0) ctxOver 0 0 32 32 0 0 1 1
      defaultParams hgt
  have hne : ctxOver.graphics.vertex_data ≠ [] := by
    have h8 : ctxOver.graphics.vertex_data.length = 8192 := by
      rw [show ctxOver.graphics.vertex_data = List.replicate 8192 sampleVertex from
        rfl, List.length_replicate]
    intro hnil
    rw [hnil] at h8
    simp at h8
  have hnone : ctxOver.graphics.texture = none := rfl
  have hfl := flush_of_no_texture ctxOver hne hnone
  simp only [pushOne]
  rw [h1, hfl]
  decide

/-- Witness for C1 at a concrete input: one push from the empty batch
of ctxTex stays within capacity, and the 2049-push scenario performs
exactly one flush. -/
theorem C1_witness :
    (push_quad (fun _ => 0) (fun _ => 0) ctxTex 0 0 32 32 0 0 1 1
        defaultParams).1.graphics.element_count ≤ MAX_INDICES ∧
    (pushN ctxTex 2049).graphics.flushCalls = 1 := by
  have h := C1_push_quad_capacity (fun _ => 0) (fun _ => 0) ctxTex
    0 0 32 32 0 0 1 1 defaultParams texture0 rfl ⟨0, rfl, rfl⟩
  exact ⟨h.1.1, h.2.2.2.2.2⟩

/-- C2 (amended): starting from an empty batch, N push_quad calls with
no intervening flush (6N within capacity) leave element_count equal to
6N and the vertex count equal to 4N without any flush; a flush with a
texture bound (on a batch satisfying the invariant) resets both to
zero (without a texture the batch is retained, see the
counterexample); and the invariant that for some quad count k,
element_count = 6 * k and the vertex list length = 4 * k (so
element_count is a multiple of 6 and element_count / 6 equals
length / 4) is preserved by push_quad, every state setter, flush and
present. -/
theorem C2_batch_counts (qsin qcos : ℚ → ℚ) (calls : List QuadCall)
    (ctx ctx2 ctx3 : Context) (t : Texture) (q : QuadCall)
    (tex : Option Texture) (sh : Option Shader) (cv : Option Canvas)
    (b : BlendState) (m : Mat4) (r : Rectangle) (st : StencilState) (sv : ℕ)
    (mr mg mb ma : Bool)
    (hV : ctx.graphics.vertex_data = []) (hE : ctx.graphics.element_count = 0)
    (hN : 6 * calls.length ≤ MAX_INDICES)
    (hT2 : ctx2.graphics.texture = some t) (hI2 : BatchInv ctx2.graphics)
    (hI3 : BatchInv ctx3.graphics) :
    ((pushMany qsin qcos ctx calls).graphics.element_count = 6 * calls.length ∧
     (pushMany qsin qcos ctx calls).graphics.vertex_data.length = 4 * calls.length ∧
     (pushMany qsin qcos ctx calls).graphics.flushCalls = ctx.graphics.flushCalls) ∧
    ((flush ctx2).1.graphics.element_count = 0 ∧
     (flush ctx2).1.graphics.vertex_data = []) ∧
    (BatchInv (push_quad qsin qcos ctx3 q.x1 q.y1 q.x2 q.y2 q.u1 q.v1 q.u2 q.v2
        q.params).1.graphics ∧
     BatchInv (flush ctx3).1.graphics ∧
     BatchInv (set_texture_ex ctx3 tex).1.graphics ∧
     BatchInv (set_shader_ex ctx3 sh).1.graphics ∧
     BatchInv (set_blend_state ctx3 b).1.graphics ∧
     BatchInv (set_canvas_ex ctx3 cv).1.graphics ∧
     BatchInv (set_transform_matrix ctx3 m).1.graphics ∧
     BatchInv (set_scissor ctx3 r).1.graphics ∧
     BatchInv (reset_scissor ctx3).1.graphics ∧
     BatchInv (set_stencil_state ctx3 st).1.graphics ∧
     BatchInv (clear_stencil ctx3 sv).1.graphics ∧
     BatchInv (set_color_mask ctx3 mr mg mb ma).1.graphics ∧
     BatchInv (present ctx3).1.graphics) := by
  refine ⟨?_, ?_, ?_⟩
  · obtain ⟨a1, a2, a3⟩ := pushMany_counts qsin qcos calls ctx (by rw [hE]; omega)
    refine ⟨by rw [a1, hE]; omega, by rw [a2, hV]; simp, a3⟩
  · by_cases hd : ctx2.graphics.vertex_data = []
    · have h0 : ctx2.graphics.element_count = 0 := by
        obtain ⟨k, hk1, hk2⟩ := hI2
        rw [hd] at hk2
        simp only [List.length_nil] at hk2
        omega
      rw [flush_of_empty ctx2 hd]
      exact ⟨by simpa using h0, by simpa using hd⟩
    · rw [flush_of_texture ctx2 t hd hT2]
      exact ⟨by simp, by simp⟩
  · exact ⟨batchInv_push qsin qcos ctx3 q.x1 q.y1 q.x2 q.y2 q.u1 q.v1 q.u2 q.v2
        q.params hI3,
      batchInv_flush ctx3 hI3,
      batchInv_set_texture_ex ctx3 tex hI3,
      batchInv_set_shader_ex ctx3 sh hI3,
      batchInv_set_blend_state ctx3 b hI3,
      batchInv_set_canvas_ex ctx3 cv hI3,
      batchInv_set_transform_matrix ctx3 m hI3,
      batchInv_set_scissor ctx3 r hI3,
      batchInv_reset_scissor ctx3 hI3,
      batchInv_set_stencil_state ctx3 st hI3,
      batchInv_clear_stencil ctx3 sv hI3,
      batchInv_set_color_mask ctx3 mr mg mb ma hI3,
      batchInv_present ctx3 hI3⟩

/-- C2 counterexample: after one push from the fresh context (no
texture bound), a flush leaves element_count at 6 rather than
resetting it to zero, refuting the unconditional reset of the claim. -/
theorem C2_counterexample :
    (flush (pushOne baseCtx)).1.graphics.element_count = 6 ∧
    (flush (pushOne baseCtx)).1.graphics.element_count ≠ 0 := by
  have hle : baseCtx.graphics.element_count + 6 ≤ MAX_INDICES := by
    norm_num [baseCtx, initialGraphics, MAX_INDICES, MAX_SPRITES]
  obtain ⟨h1, h2, -, h4, -⟩ :=
    push_quad_le (fun _ => 0) (fun _ => 0) baseCtx 0 0 32 32 0 0 1 1
      defaultParams hle
  have hcount : (pushOne baseCtx).graphics.element_count = 6 := by
    simp only [pushOne]
    rw [h1]
    norm_num [baseCtx, initialGraphics]
  have hne : (pushOne baseCtx).graphics.vertex_data ≠ [] := by
    have hl : (pushOne baseCtx).graphics.vertex_data.length = 4 := by
      simp only [pushOne]
      rw [h2]
      norm_num [baseCtx, initialGraphics]
    intro hnil
    rw [hnil] at hl
    simp at hl
  have hnone : (pushOne baseCtx).graphics.texture = none := by
    simp only [pushOne]
    rw [h4]
    rfl
  rw [flush_of_no_texture (pushOne baseCtx) hne hnone]
  exact ⟨by simpa using hcount, by simp [hcount]⟩

/-- Witness for C2 at a concrete input: one pushed quad yields counts
6 and 4, and a flush of a one-quad batch with a texture bound resets
the element count. -/
theorem C2_witness :
    (pushMany (fun _ => 0) (fun _ => 0) baseCtx [call0]).graphics.element_count = 6 ∧
    (flush ctxBatch).1.graphics.element_count = 0 := by
  have h := C2_batch_counts (fun _ => 0) (fun _ => 0) [call0] baseCtx ctxBatch
    ctxBatch texture0 call0 (some texture0) none none (BlendState.alpha false)
    1 ⟨0, 0, 1, 1⟩ ⟨false, StencilAction.Keep, StencilTest.Always, 0, 0, 0⟩ 0
    true true true true rfl rfl (by norm_num [MAX_INDICES, MAX_SPRITES]) rfl
    ⟨1, rfl, rfl⟩ ⟨1, rfl, rfl⟩
  exact ⟨by simpa using h.1.1, h.2.1.1⟩

/-- C3: flush with a non-empty batch and a texture bound applies the
default uniforms (projection times transform, white tint), enables
culling, sets the front face counter-clockwise when rendering to the
screen and clockwise when a canvas is active, uploads the accumulated
vertex data to the dynamic vertex buffer at offset 0, issues exactly
one indexed draw call covering exactly the pending element_count, and
clears the batch; with an empty batch it is a no-op (no device
operations, state unchanged apart from the instrumentation counter). -/
theorem C3_flush_contract (ctx ctxc ctx2 : Context) (t tc : Texture) (c : Canvas)
    (hNE : ctx.graphics.vertex_data ≠ []) (hT : ctx.graphics.texture = some t)
    (hScreen : ctx.graphics.canvas = none)
    (hNEc : ctxc.graphics.vertex_data ≠ []) (hTc : ctxc.graphics.texture = some tc)
    (hCanvas : ctxc.graphics.canvas = some c)
    (hE : ctx2.graphics.vertex_data = []) :
    flush ctx =
      ({ ctx with graphics :=
          { ctx.graphics with
            flushCalls := ctx.graphics.flushCalls + 1
            vertex_data := []
            element_count := 0 } },
       [DeviceOp.set_uniforms
          (ctx.graphics.projection_matrix * ctx.graphics.transform_matrix)
          Color.WHITE,
        DeviceOp.cull_face true,
        DeviceOp.front_face VertexWinding.CounterClockwise,
        DeviceOp.set_vertex_buffer_data ctx.graphics.vertex_data 0,
        DeviceOp.draw t.id
          (ctx.graphics.shader.getD ctx.graphics.default_shader).id
          0 ctx.graphics.element_count]) ∧
    flush ctxc =
      ({ ctxc with graphics :=
          { ctxc.graphics with
            flushCalls := ctxc.graphics.flushCalls + 1
            vertex_data := []
            element_count := 0 } },
       [DeviceOp.set_uniforms
          (ctxc.graphics.projection_matrix * ctxc.graphics.transform_matrix)
          Color.WHITE,
        DeviceOp.cull_face true,
        DeviceOp.front_face VertexWinding.Clockwise,
        DeviceOp.set_vertex_buffer_data ctxc.graphics.vertex_data 0,
        DeviceOp.draw tc.id
          (ctxc.graphics.shader.getD ctxc.graphics.default_shader).id
          0 ctxc.graphics.element_count]) ∧
    flush ctx2 =
      ({ ctx2 with graphics :=
          { ctx2.graphics with
            flushCalls := ctx2.graphics.flushCalls + 1 } }, []) := by
  refine ⟨?_, ?_, flush_of_empty ctx2 hE⟩
  · rw [flush_of_texture ctx t hNE hT, hScreen]
  · rw [flush_of_texture ctxc tc hNEc hTc, hCanvas]

/-- Witness for C3 at concrete contexts: a screen flush of a one-quad
batch clears it, a canvas flush emits device operations, and an
empty-batch flush emits none. -/
theorem C3_witness :
    (flush ctxBatch).1.graphics.vertex_data = [] ∧
    (flush ctxBatchCanvas).2 ≠ [] ∧
    (flush baseCtx).2 = [] := by
  have h := C3_flush_contract ctxBatch ctxBatchCanvas baseCtx texture0 texture0
    canvas0 (by decide) rfl rfl (by decide) rfl rfl rfl
  refine ⟨?_, ?_, ?_⟩
  · rw [h.1]
  · rw [h.2.1]; simp
  · rw [h.2.2]

/-- C4 (amended): if flush is called while the batch is non-empty and
no texture is bound, no draw call and no vertex-buffer upload is
issued to the device, and the batch is left pending rather than
cleared: the vertex list and element_count are unchanged. -/
theorem C4_flush_no_texture_keeps_batch (ctx : Context)
    (h1 : ctx.graphics.vertex_data ≠ []) (h2 : ctx.graphics.texture = none) :
    (flush ctx).2 = [] ∧
    (flush ctx).1.graphics.vertex_data = ctx.graphics.vertex_data ∧
    (flush ctx).1.graphics.element_count = ctx.graphics.element_count := by
  rw [flush_of_no_texture ctx h1 h2]
  exact ⟨rfl, rfl, rfl⟩

/-- C4 counterexample: flushing a one-quad batch with no texture bound
leaves the vertex list non-empty and element_count at 6, refuting the
claim that the batch is cleared. -/
theorem C4_counterexample :
    (flush ctxBatchNoTex).1.graphics.vertex_data ≠ [] ∧
    (flush ctxBatchNoTex).1.graphics.element_count ≠ 0 := by
  rw [flush_of_no_texture ctxBatchNoTex (by decide) rfl]
  exact ⟨by decide, by decide⟩

/-- Witness for C4 at a concrete context: flushing a one-quad batch
with no texture bound emits no device operations and keeps the element
count. -/
theorem C4_witness :
    (flush ctxBatchNoTex).2 = [] ∧
    (flush ctxBatchNoTex).1.graphics.element_count =
      ctxBatchNoTex.graphics.element_count := by
  have h := C4_flush_no_texture_keeps_batch ctxBatchNoTex (by decide) rfl
  exact ⟨h.1, h.2.2⟩

/-- C5: each of the texture, shader, blend-state and canvas setters
performs zero flushes and leaves everything unchanged when the new
value equals the current one, and performs exactly one flush (draining
the pending batch under the old state) before installing a different
value; the wrappers set_texture, set_shader, reset_shader,
reset_blend_state, set_canvas and reset_canvas are definitionally the
corresponding special cases. -/
theorem C5_state_setters (ctx : Context) (tex : Option Texture)
    (sh : Option Shader) (b : BlendState) (cv : Option Canvas)
    (t1 : Texture) (s1 : Shader) (c1 : Canvas) :
    (tex = ctx.graphics.texture → set_texture_ex ctx tex = (ctx, [])) ∧
    (tex ≠ ctx.graphics.texture →
      set_texture_ex ctx tex =
        ({ (flush ctx).1 with graphics :=
            { (flush ctx).1.graphics with texture := tex } }, (flush ctx).2) ∧
      (set_texture_ex ctx tex).1.graphics.flushCalls =
        ctx.graphics.flushCalls + 1) ∧
    (sh = ctx.graphics.shader → set_shader_ex ctx sh = (ctx, [])) ∧
    (sh ≠ ctx.graphics.shader →
      set_shader_ex ctx sh =
        ({ (flush ctx).1 with graphics :=
            { (flush ctx).1.graphics with shader := sh } }, (flush ctx).2) ∧
      (set_shader_ex ctx sh).1.graphics.flushCalls =
        ctx.graphics.flushCalls + 1) ∧
    (b = ctx.graphics.blend_state → set_blend_state ctx b = (ctx, [])) ∧
    (b ≠ ctx.graphics.blend_state →
      set_blend_state ctx b =
        ({ (flush ctx).1 with graphics :=
            { (flush ctx).1.graphics with blend_state := b } },
         (flush ctx).2 ++ [DeviceOp.set_blend_state b]) ∧
      (set_blend_state ctx b).1.graphics.flushCalls =
        ctx.graphics.flushCalls + 1) ∧
    (cv = ctx.graphics.canvas → set_canvas_ex ctx cv = (ctx, [])) ∧
    (cv ≠ ctx.graphics.canvas →
      (set_canvas_ex ctx cv).1.graphics.canvas = cv ∧
      (set_canvas_ex ctx cv).1.graphics.flushCalls =
        ctx.graphics.flushCalls + 1 ∧
      ∃ rest, (set_canvas_ex ctx cv).2 = (flush ctx).2 ++ rest) ∧
    set_texture ctx t1 = set_texture_ex ctx (some t1) ∧
    set_shader ctx s1 = set_shader_ex ctx (some s1) ∧
    reset_shader ctx = set_shader_ex ctx none ∧
    reset_blend_state ctx = set_blend_state ctx (BlendState.alpha false) ∧
    set_canvas ctx c1 = set_canvas_ex ctx (some c1) ∧
    reset_canvas ctx = set_canvas_ex ctx none := by
  have hfc := flush_flushCalls ctx
  refine ⟨?_, ?_, ?_, ?_, ?_, ?_, ?_, ?_, rfl, rfl, rfl, rfl, rfl, rfl⟩
  · intro h
    unfold set_texture_ex
    dsimp only
    rw [if_neg (not_not_intro h)]
  · intro h
    refine ⟨?_, ?_⟩ <;> unfold set_texture_ex <;> dsimp only <;> rw [if_pos h]
    simpa using hfc
  · intro h
    unfold set_shader_ex
    dsimp only
    rw [if_neg (not_not_intro h)]
  · intro h
    refine ⟨?_, ?_⟩ <;> unfold set_shader_ex <;> dsimp only <;> rw [if_pos h]
    simpa using hfc
  · intro h
    unfold set_blend_state
    dsimp only
    rw [if_neg (not_not_intro h)]
  · intro h
    refine ⟨?_, ?_⟩ <;> unfold set_blend_state <;> dsimp only <;> rw [if_pos h]
    simpa using hfc
  · intro h
    unfold set_canvas_ex
    dsimp only
    rw [if_neg (not_not_intro h)]
  · intro h
    unfold set_canvas_ex
    dsimp only
    rw [if_pos h]
    cases cv with
    | none => exact ⟨rfl, by simpa using hfc, ⟨_, List.append_assoc _ _ _⟩⟩
    | some r => exact ⟨rfl, by simpa using hfc, ⟨_, List.append_assoc _ _ _⟩⟩

/-- Witness for C5 at concrete inputs: re-setting the already current
texture is the identity with no device operations, and setting a
different texture performs exactly one flush. -/
theorem C5_witness :
    set_texture_ex ctxBatch (some texture0) = (ctxBatch, []) ∧
    (set_texture_ex ctxBatch (some ⟨99⟩)).1.graphics.flushCalls =
      ctxBatch.graphics.flushCalls + 1 := by
  have h := C5_state_setters ctxBatch (some texture0) none
    (BlendState.alpha false) none texture0 shader0 canvas0
  have h2 := C5_state_setters ctxBatch (some ⟨99⟩) none
    (BlendState.alpha false) none texture0 shader0 canvas0
  exact ⟨h.1 rfl, (h2.2.1 (by decide)).2⟩

/-- C6 (amended): set_transform_matrix does not follow the
compare-then-flush protocol: it performs a flush unconditionally, even
when the new matrix equals the current transform matrix, and then
installs the new matrix. -/
theorem C6_set_transform_matrix_always_flushes (ctx : Context) (m : Mat4) :
    set_transform_matrix ctx m =
      ({ (flush ctx).1 with graphics :=
          { (flush ctx).1.graphics with transform_matrix := m } },
       (flush ctx).2) ∧
    (set_transform_matrix ctx m).1.graphics.flushCalls =
      ctx.graphics.flushCalls + 1 ∧
    (set_transform_matrix ctx m).1.graphics.transform_matrix = m := by
  have hfc := flush_flushCalls ctx
  refine ⟨rfl, ?_, rfl⟩
  unfold set_transform_matrix
  dsimp only
  simpa using hfc

/-- C6 counterexample: setting the transform matrix of a context with
a pending quad to a matrix equal to its current one still performs a
flush: the flush counter increments and the batch is drained to the
device (non-empty operation trace), refuting the zero-flush claim for
equal matrices. -/
theorem C6_counterexample :
    (set_transform_matrix ctxBatch
        ctxBatch.graphics.transform_matrix).1.graphics.flushCalls =
      ctxBatch.graphics.flushCalls + 1 ∧
    (set_transform_matrix ctxBatch ctxBatch.graphics.transform_matrix).2 ≠ [] := by
  have hfl := flush_of_texture ctxBatch texture0 (by decide) rfl
  constructor
  · have hfc := flush_flushCalls ctxBatch
    unfold set_transform_matrix
    dsimp only
    simpa using hfc
  · unfold set_transform_matrix
    dsimp only
    rw [hfl]
    simp

theorem push_quad_map_uv (qsin qcos : ℚ → ℚ) (ctx : Context)
    (x1 y1 x2 y2 u1 v1 u2 v2 : ℚ) (params : DrawParams)
    (hcap : ctx.graphics.element_count + 6 ≤ MAX_INDICES) :
    (push_quad qsin qcos ctx x1 y1 x2 y2 u1 v1 u2 v2
        params).1.graphics.vertex_data.map Vertex.uv =
      ctx.graphics.vertex_data.map Vertex.uv ++
        [((if (x2 - params.origin.1) * params.scale.1 <
              (x1 - params.origin.1) * params.scale.1 then u2 else u1),
          (if (y2 - params.origin.2) * params.scale.2 <
              (y1 - params.origin.2) * params.scale.2 then v2 else v1)),
         ((if (x2 - params.origin.1) * params.scale.1 <
              (x1 - params.origin.1) * params.scale.1 then u2 else u1),
          (if (y2 - params.origin.2) * params.scale.2 <
              (y1 - params.origin.2) * params.scale.2 then v1 else v2)),
         ((if (x2 - params.origin.1) * params.scale.1 <
              (x1 - params.origin.1) * params.scale.1 then u1 else u2),
          (if (y2 - params.origin.2) * params.scale.2 <
              (y1 - params.origin.2) * params.scale.2 then v1 else v2)),
         ((if (x2 - params.origin.1) * params.scale.1 <
              (x1 - params.origin.1) * params.scale.1 then u1 else u2),
          (if (y2 - params.origin.2) * params.scale.2 <
              (y1 - params.origin.2) * params.scale.2 then v2 else v1))] := by
  have h2 : ¬ (ctx.graphics.element_count + 6 > MAX_INDICES) := not_lt.mpr hcap
  unfold push_quad
  dsimp only
  rw [if_neg h2]
  split_ifs <;> simp [Vertex.new, Vertex.uv]

/-- C7: for every quad with x1 < x2 and y1 < y2 pushed with rotation
zero: with scale (1,1) the texture coordinates are emitted unswapped;
with scale (-1,1) u1 and u2 are swapped in the emitted texture
coordinates while v1 and v2 are unchanged; with scale (1,-1) v1 and v2
are swapped while u1 and u2 are unchanged; and with scale (-1,-1) both
independent swaps occur in the same call. -/
theorem C7_scale_flip_swaps_uv (qsin qcos : ℚ → ℚ) (ctx : Context)
    (x1 y1 x2 y2 u1 v1 u2 v2 : ℚ) (position origin : Vec2) (col : Color)
    (hx : x1 < x2) (hy : y1 < y2)
    (hcap : ctx.graphics.element_count + 6 ≤ MAX_INDICES) :
    (push_quad qsin qcos ctx x1 y1 x2 y2 u1 v1 u2 v2
        { position := position, scale := (1, 1), origin := origin,
          rotation := 0, color := col }).1.graphics.vertex_data.map Vertex.uv =
      ctx.graphics.vertex_data.map Vertex.uv ++
        [(u1, v1), (u1, v2), (u2, v2), (u2, v1)] ∧
    (push_quad qsin qcos ctx x1 y1 x2 y2 u1 v1 u2 v2
        { position := position, scale := (-1, 1), origin := origin,
          rotation := 0, color := col }).1.graphics.vertex_data.map Vertex.uv =
      ctx.graphics.vertex_data.map Vertex.uv ++
        [(u2, v1), (u2, v2), (u1, v2), (u1, v1)] ∧
    (push_quad qsin qcos ctx x1 y1 x2 y2 u1 v1 u2 v2
        { position := position, scale := (1, -1), origin := origin,
          rotation := 0, color := col }).1.graphics.vertex_data.map Vertex.uv =
      ctx.graphics.vertex_data.map Vertex.uv ++
        [(u1, v2), (u1, v1), (u2, v1), (u2, v2)] ∧
    (push_quad qsin qcos ctx x1 y1 x2 y2 u1 v1 u2 v2
        { position := position, scale := (-1, -1), origin := origin,
          rotation := 0, color := col }).1.graphics.vertex_data.map Vertex.uv =
      ctx.graphics.vertex_data.map Vertex.uv ++
        [(u2, v2), (u2, v1), (u1, v1), (u1, v2)] := by
  have hxpos : ¬ ((x2 - origin.1) * (1 : ℚ) < (x1 - origin.1) * (1 : ℚ)) := by
    intro hlt
    rw [mul_one, mul_one] at hlt
    linarith
  have hxneg : (x2 - origin.1) * (-1 : ℚ) < (x1 - origin.1) * (-1 : ℚ) := by
    nlinarith [hx]
  have hypos : ¬ ((y2 - origin.2) * (1 : ℚ) < (y1 - origin.2) * (1 : ℚ)) := by
    intro hlt
    rw [mul_one, mul_one] at hlt
    linarith
  have hyneg : (y2 - origin.2) * (-1 : ℚ) < (y1 - origin.2) * (-1 : ℚ) := by
    nlinarith [hy]
  refine ⟨?_, ?_, ?_, ?_⟩ <;>
    rw [push_quad_map_uv qsin qcos ctx x1 y1 x2 y2 u1 v1 u2 v2 _ hcap] <;>
    dsimp only
  · simp only [if_neg hxpos, if_neg hypos]
  · simp only [if_pos hxneg, if_neg hypos]
  · simp only [if_neg hxpos, if_pos hyneg]
  · simp only [if_pos hxneg, if_pos hyneg]

/-- Witness for C7 at a concrete input: pushing the unit quad with
scale (-1, 1) emits the texture coordinates with u components
swapped. -/
theorem C7_witness :
    (push_quad (fun _ => 0) (fun _ => 0) baseCtx 0 0 1 1 0 0 1 1
        { position := (0, 0), scale := (-1, 1), origin := (0, 0),
          rotation := 0, color := Color.WHITE }).1.graphics.vertex_data.map
      Vertex.uv = [(1, 0), (1, 1), (0, 1), (0, 0)] := by
  have h := C7_scale_flip_swaps_uv (fun _ => 0) (fun _ => 0) baseCtx
    0 0 1 1 0 0 1 1 (0, 0) (0, 0) Color.WHITE (by norm_num) (by norm_num)
    (by decide)
  have e : baseCtx.graphics.vertex_data = ([] : List Vertex) := rfl
  have h21 := h.2.1
  rw [e] at h21
  simpa using h21

/-- C8: for positive width and height, ortho with flipped false
builds the projection from planes left 0, right w, top 0, bottom h,
near -1 and far 1, mapping (0,0) to the top-left clip corner (-1,1)
and (w,h) to the bottom-right (1,-1); with flipped true it builds
top h, bottom 0, inverting only the vertical mapping; near and far
are exactly -1 and 1 in both cases. -/
theorem C8_ortho_projection (w h : ℚ) (hw : 0 < w) (hh : 0 < h) :
    ortho w h false =
      orthographicRhNo
        { left := 0, right := w, bottom := h, top := 0, near := -1, far := 1 } ∧
    ortho w h true =
      orthographicRhNo
        { left := 0, right := w, bottom := 0, top := h, near := -1, far := 1 } ∧
    Matrix.mulVec (ortho w h false) ![0, 0, 0, 1] = ![-1, 1, 0, 1] ∧
    Matrix.mulVec (ortho w h false) ![w, h, 0, 1] = ![1, -1, 0, 1] ∧
    Matrix.mulVec (ortho w h true) ![0, 0, 0, 1] = ![-1, -1, 0, 1] ∧
    Matrix.mulVec (ortho w h true) ![w, h, 0, 1] = ![1, 1, 0, 1] := by
  have hw0 : w ≠ 0 := ne_of_gt hw
  have hh0 : h ≠ 0 := ne_of_gt hh
  have hw1 : -w ≠ 0 := neg_ne_zero.mpr hw0
  have hh1 : -h ≠ 0 := neg_ne_zero.mpr hh0
  refine ⟨rfl, rfl, ?_, ?_, ?_, ?_⟩ <;>
  · funext i
    fin_cases i <;>
      simp [ortho, orthographicRhNo, Matrix.mulVec, Matrix.dotProduct,
        Fin.sum_univ_four, Matrix.cons_val_zero, Matrix.cons_val_one,
        Matrix.head_cons, Matrix.of_apply, Matrix.cons_val',
        Matrix.empty_val', Matrix.cons_val_fin_one, div_neg, neg_div] <;>
      field_simp <;>
      ring

/-- Witness for C8 at a concrete input: the 4 by 2 viewport corners
map to the expected clip corners. -/
theorem C8_witness :
    Matrix.mulVec (ortho 4 2 false) ![0, 0, 0, 1] = ![-1, 1, 0, 1] ∧
    Matrix.mulVec (ortho 4 2 true) ![4, 2, 0, 1] = ![1, 1, 0, 1] := by
  have h := C8_ortho_projection 4 2 (by norm_num) (by norm_num)
  exact ⟨h.2.2.1, h.2.2.2.2.2⟩

/-- C9: set_scissor flushes the pending batch first and enables the
scissor test; with no canvas active it passes the rectangle with its Y
coordinate flipped from top-left to bottom-left convention using the
physical window height, and with a canvas active it passes the
rectangle through unchanged. -/
theorem C9_set_scissor_flip (ctx ctxc : Context) (c : Canvas) (r : Rectangle)
    (hN : ctx.graphics.canvas = none) (hC : ctxc.graphics.canvas = some c) :
    set_scissor ctx r =
      ((flush ctx).1,
       (flush ctx).2 ++
         [DeviceOp.scissor r.x
            (ctx.window.physical_height - (r.y + r.height)) r.width r.height] ++
         [DeviceOp.scissor_test true]) ∧
    set_scissor ctxc r =
      ((flush ctxc).1,
       (flush ctxc).2 ++ [DeviceOp.scissor r.x r.y r.width r.height] ++
         [DeviceOp.scissor_test true]) ∧
    (set_scissor ctx r).1.graphics.flushCalls = ctx.graphics.flushCalls + 1 ∧
    (set_scissor ctxc r).1.graphics.flushCalls = ctxc.graphics.flushCalls + 1 := by
  obtain ⟨-, -, -, -, hcv, -, -, -, hw⟩ := flush_preserves ctx
  obtain ⟨-, -, -, -, hcvc, -, -, -, -⟩ := flush_preserves ctxc
  refine ⟨?_, ?_, ?_, ?_⟩
  · unfold set_scissor
    dsimp only
    rw [hcv, hN, hw]
  · unfold set_scissor
    dsimp only
    rw [hcvc, hC]
  · unfold set_scissor
    dsimp only
    exact flush_flushCalls ctx
  · unfold set_scissor
    dsimp only
    exact flush_flushCalls ctxc

/-- Witness for C9 at concrete inputs: both the screen path and the
canvas path flush exactly once, and the screen path emits the
Y-flipped rectangle. -/
theorem C9_witness :
    (set_scissor baseCtx ⟨10, 20, 30, 40⟩).2 =
      (flush baseCtx).2 ++ [DeviceOp.scissor 10 (600 - (20 + 40)) 30 40] ++
        [DeviceOp.scissor_test true] ∧
    (set_scissor ctxBatchCanvas ⟨10, 20, 30, 40⟩).1.graphics.flushCalls =
      ctxBatchCanvas.graphics.flushCalls + 1 := by
  have h := C9_set_scissor_flip baseCtx ctxBatchCanvas canvas0
    ⟨10, 20, 30, 40⟩ rfl rfl
  exact ⟨by rw [h.1]; exact rfl, h.2.2.2⟩

/-- C10: present performs exactly one flush followed by one buffer
swap and nothing else; beyond the effects of that flush it leaves the
current texture, shader, canvas, blend state, transform matrix and
projection matrix (and the window) unchanged, so all render state
persists into the next frame. -/
theorem C10_present_preserves_state (ctx : Context) :
    present ctx = ((flush ctx).1, (flush ctx).2 ++ [DeviceOp.swap_buffers]) ∧
    (present ctx).1.graphics.texture = ctx.graphics.texture ∧
    (present ctx).1.graphics.shader = ctx.graphics.shader ∧
    (present ctx).1.graphics.canvas = ctx.graphics.canvas ∧
    (present ctx).1.graphics.blend_state = ctx.graphics.blend_state ∧
    (present ctx).1.graphics.transform_matrix = ctx.graphics.transform_matrix ∧
    (present ctx).1.graphics.projection_matrix = ctx.graphics.projection_matrix ∧
    (present ctx).1.window = ctx.window ∧
    (present ctx).1.graphics.flushCalls = ctx.graphics.flushCalls + 1 := by
  obtain ⟨htex, hsh, -, -, hcv, hproj, htr, hbl, hwin⟩ := flush_preserves ctx
  have hfc := flush_flushCalls ctx
  refine ⟨rfl, ?_, ?_, ?_, ?_, ?_, ?_, ?_, ?_⟩ <;>
    unfold present <;> dsimp only <;> assumption

end Tetra
